import Mathlib

/-!
Shallow embedding of `src/app.py` (nutrition chat backend).

The food knowledge base `FOOD_DATA`, the matcher `analyze_food_text`, the
aggregator `build_nutrition_summary`, the prompt builder / service wrapper
`ask_gemini` and the request handler `chat` are translated from the Python
source.  Numeric fields are modelled as exact rationals: every value in the
table is a decimal with at most one fractional digit, so Python float
arithmetic and exact rational arithmetic agree on all displayed outputs
reached by the claims.  Python's `\d`, `\s`, `str.lower` and `str.strip`
are modelled on their ASCII fragments.  Operations that can raise in Python
(`int(...)` on a non-numeric string; the external generative-text call) are
modelled with `Option` / `Except`.
-/

/-- A value of the knowledge-base table: one nutrient record. -/
structure FoodData where
  calories : ℚ
  protein : ℚ
  carbs : ℚ
  fat : ℚ
  fiber : ℚ
  notes : String
  deriving DecidableEq, Repr

/-- A matched item, as the dict `{"name": ..., "quantity": ..., "data": ...}`
appended by `analyze_food_text`.  Python ints are modelled as `ℤ`. -/
structure Item where
  name : String
  quantity : ℤ
  data : FoodData
  deriving DecidableEq, Repr

def appleData : FoodData :=
  ⟨95, 5/10, 25, 3/10, 44/10, "Apples provide fiber and vitamin C. Good for digestion."⟩

def bananaData : FoodData :=
  ⟨105, 13/10, 27, 3/10, 31/10, "Bananas give quick energy and potassium. Good before exercise."⟩

def orangeData : FoodData :=
  ⟨62, 12/10, 15, 2/10, 31/10, "Oranges are rich in vitamin C and support immunity."⟩

def riceData : FoodData :=
  ⟨200, 43/10, 45, 4/10, 6/10, "Rice gives carbohydrates for energy. Best with vegetables and protein."⟩

def chapatiData : FoodData :=
  ⟨120, 35/10, 18, 37/10, 20/10, "Chapati (roti) from wheat gives carbs and some fiber."⟩

def dalData : FoodData :=
  ⟨180, 9, 26, 3, 7, "Dal provides plant-based protein and good fiber."⟩

def paneerData : FoodData :=
  ⟨265, 18, 6, 20, 0, "Paneer is high in protein and fat. Good in moderation."⟩

def milkData : FoodData :=
  ⟨103, 8, 12, 24/10, 0, "Milk provides protein and calcium. Good for bones."⟩

def eggData : FoodData :=
  ⟨78, 63/10, 6/10, 53/10, 0, "Eggs are rich in protein and healthy fats."⟩

def almondData : FoodData :=
  ⟨7, 3/10, 2/10, 6/10, 3/10, "Almonds provide healthy fats and vitamin E."⟩

def saladData : FoodData :=
  ⟨50, 2, 10, 5/10, 3, "Vegetable salad is low in calories and high in fiber."⟩

def pizzaData : FoodData :=
  ⟨285, 12, 36, 10, 2, "Pizza is usually high in calories, refined flour and fats."⟩

def burgerData : FoodData :=
  ⟨300, 13, 30, 14, 15/10, "Burgers can have a lot of fats and refined carbs."⟩

def friesData : FoodData :=
  ⟨180, 2, 22, 9, 2, "Fries are deep fried and high in unhealthy fats."⟩

def sodaData : FoodData :=
  ⟨140, 0, 39, 0, 0, "Soda has a lot of sugar and almost no nutrients."⟩

/-- The knowledge base, in the dict's insertion order (Python dicts iterate in
insertion order). -/
def FOOD_DATA : List (String × FoodData) :=
  [("apple", appleData), ("banana", bananaData), ("orange", orangeData),
   ("rice", riceData), ("chapati", chapatiData), ("dal", dalData),
   ("paneer", paneerData), ("milk", milkData), ("egg", eggData),
   ("almond", almondData), ("salad", saladData), ("pizza", pizzaData),
   ("burger", burgerData), ("fries", friesData), ("soda", sodaData)]

/-- The ASCII fragment of Python's `\s` / `str.strip` whitespace set. -/
def isPySpace (c : Char) : Bool :=
  c = ' ' || c = '\t' || c = '\n' || c = '\r' || c = '\x0b' || c = '\x0c'

/-- Python `str.strip()` (ASCII whitespace fragment). -/
def pyStrip (s : String) : String :=
  ⟨((s.data.dropWhile isPySpace).reverse.dropWhile isPySpace).reverse⟩

/-- Python `sub in s` substring containment on strings (as char lists). -/
def pyContains (sub : List Char) : List Char → Bool
  | [] => sub.isEmpty
  | c :: rest => sub.isPrefixOf (c :: rest) || pyContains sub rest

/-- Value of a digit string, as `int(...)` computes it on an all-digit string. -/
def digitsToNat (s : List Char) : ℕ :=
  s.foldl (fun n c => 10 * n + (c.toNat - 48)) 0

/-- Python `int(s)` restricted to the shapes `re` group 1 can produce:
`some` on a nonempty all-digit string, `none` (a `ValueError`) otherwise. -/
def pyInt? (s : List Char) : Option ℤ :=
  if s.isEmpty then none
  else if s.all Char.isDigit then some (digitsToNat s) else none

/-- Matching the tail `\s*<name>` of the quantity pattern against `rest`,
where `k` counts the whitespace characters still available to `\s*`:
the regex engine tries the longest whitespace run first and backtracks. -/
def wsTry (nm rest : List Char) : ℕ → Bool
  | 0 => nm.isPrefixOf rest
  | k + 1 => nm.isPrefixOf (rest.drop (k + 1)) || wsTry nm rest k

/-- Matching `(\d+)\s*<name>` at the head of `s`, where `m` counts the digit
characters still available to `\d+` (greedy, backtracking, at least one).
Returns the captured group 1.  The pattern's trailing `s?` always succeeds
and never changes group 1, so it is dropped. -/
def digTry (nm s : List Char) : ℕ → Option (List Char)
  | 0 => none
  | m + 1 =>
    if wsTry nm (s.drop (m + 1)) ((s.drop (m + 1)).takeWhile isPySpace).length then
      some (s.take (m + 1))
    else digTry nm s m

/-- Whether `(\d+)\s*<name>s?` matches at the start of `s`; the capture. -/
def matchAt (nm s : List Char) : Option (List Char) :=
  digTry nm s (s.takeWhile Char.isDigit).length

/-- `re.search(rf"(\d+)\s*{nm}s?", s)`: leftmost match, returning group 1. -/
def reSearchQty (nm : List Char) : List Char → Option (List Char)
  | [] => none
  | c :: rest =>
    match matchAt nm (c :: rest) with
    | some ds => some ds
    | none => reSearchQty nm rest

/-- The quantity the matcher ends up storing for a food found in `lower`:
the parsed capture when the pattern matched, else the default 1.  (Used to
state the characterization of the loop; the parse never fails, see below.) -/
def qtyOf (lower nm : List Char) : ℤ :=
  match reSearchQty nm lower with
  | none => 1
  | some ds => (digitsToNat ds : ℤ)

/-- One iteration of the matcher loop for entry `(nm, d)`.  Outer `none` is a
raised exception (unreachable, proved below); inner `none` means the food was
not found in the text. -/
def foodItem? (lower : List Char) (nm : String) (d : FoodData) : Option (Option Item) :=
  if pyContains nm.data lower then
    match reSearchQty nm.data lower with
    | none => some (some ⟨nm, 1, d⟩)
    | some ds =>
      match pyInt? ds with
      | none => none
      | some q => some (some ⟨nm, q, d⟩)
  else some none

/-- The matcher loop over the table, accumulating `items` in table order. -/
def analyzeAux (lower : List Char) : List (String × FoodData) → Option (List Item)
  | [] => some []
  | (nm, d) :: tbl =>
    match foodItem? lower nm d with
    | none => none
    | some none => analyzeAux lower tbl
    | some (some it) =>
      match analyzeAux lower tbl with
      | none => none
      | some items => some (it :: items)

/-- `analyze_food_text(text)`: detect known foods and quantities.  `none`
models a raised exception. -/
def analyze_food_text (text : String) : Option (List Item) :=
  analyzeAux (text.data.map Char.toLower) FOOD_DATA

/-- The per-item value `d["calories"] * q`. -/
def itemCalories (it : Item) : ℚ := it.data.calories * (it.quantity : ℚ)

/-- The per-item value `d["protein"] * q`. -/
def itemProtein (it : Item) : ℚ := it.data.protein * (it.quantity : ℚ)

/-- The per-item value `d["carbs"] * q`. -/
def itemCarbs (it : Item) : ℚ := it.data.carbs * (it.quantity : ℚ)

/-- The per-item value `d["fat"] * q`. -/
def itemFat (it : Item) : ℚ := it.data.fat * (it.quantity : ℚ)

/-- The per-item value `d["fiber"] * q`. -/
def itemFiber (it : Item) : ℚ := it.data.fiber * (it.quantity : ℚ)

/-- The five running sums of `build_nutrition_summary`. -/
structure Totals where
  calories : ℚ
  protein : ℚ
  carbs : ℚ
  fat : ℚ
  fiber : ℚ
  deriving DecidableEq, Repr

/-- One pass of the accumulation loop body: add the unrounded per-item
values to the running totals. -/
def addItem (t : Totals) (it : Item) : Totals :=
  ⟨t.calories + itemCalories it, t.protein + itemProtein it,
   t.carbs + itemCarbs it, t.fat + itemFat it, t.fiber + itemFiber it⟩

/-- The totals after the loop, starting from the all-zero dict. -/
def totalsOf (items : List Item) : Totals :=
  items.foldl addItem ⟨0, 0, 0, 0, 0⟩

/-- Python `round(x)` on an exact rational: round half to even. -/
def pyRound (x : ℚ) : ℤ :=
  let f := x.floor
  if x - f < 1 / 2 then f
  else if 1 / 2 < x - f then f + 1
  else if f % 2 = 0 then f else f + 1

/-- Python `f"{x:.1f}"` on an exact rational: one decimal digit, rounding the
scaled value half to even (exact for every multiple of 1/10). -/
def fmt1 (x : ℚ) : String :=
  if pyRound (10 * x) < 0 then
    "-" ++ toString ((-pyRound (10 * x)).toNat / 10) ++ "." ++
      toString ((-pyRound (10 * x)).toNat % 10)
  else
    toString ((pyRound (10 * x)).toNat / 10) ++ "." ++
      toString ((pyRound (10 * x)).toNat % 10)

/-- The per-item report line the loop appends to `lines`. -/
def itemLine (it : Item) : String :=
  toString it.quantity ++ " x " ++ it.name ++ ": ~" ++
    toString (pyRound (itemCalories it)) ++ " kcal (protein: " ++
    fmt1 (itemProtein it) ++ " g, carbs: " ++ fmt1 (itemCarbs it) ++
    " g, fat: " ++ fmt1 (itemFat it) ++ " g, fiber: " ++
    fmt1 (itemFiber it) ++ " g)"

/-- `build_nutrition_summary(food_items)`: the human-readable report.  The
`textwrap.dedent` of the f-string literal is applied at translation time
(it strips the common four-space margin and blanks the whitespace-only
final line of that fixed literal). -/
def build_nutrition_summary (food_items : List Item) : String :=
  if food_items.isEmpty then
    "I could not detect any known foods from the text."
  else
    "Nutrition breakdown:\n" ++ String.intercalate "\n" (food_items.map itemLine) ++
      "\n\n" ++ "\nTotal approximate values:\n- Calories: " ++
      toString (pyRound (totalsOf food_items).calories) ++ " kcal\n- Protein: " ++
      fmt1 (totalsOf food_items).protein ++ " g\n- Carbohydrates: " ++
      fmt1 (totalsOf food_items).carbs ++ " g\n- Fat: " ++
      fmt1 (totalsOf food_items).fat ++ " g\n- Fiber: " ++
      fmt1 (totalsOf food_items).fiber ++ " g\n"

/-- The prompt string assembled by `ask_gemini`. -/
def geminiPrompt (user_message nutrition_summary : String) : String :=
  "\nYou are a friendly nutrition assistant called \"Nutrition Buddy\".\n" ++
  "The user will tell you what they ate.\n" ++
  "You are given an approximate nutrition summary from a small food database.\n\n" ++
  "Your job:\n" ++
  "- Explain the meal's nutrition in very simple, clear English.\n" ++
  "- Imagine you are talking to a 10–12 year old student.\n" ++
  "- Be kind, encouraging and non-judgmental.\n" ++
  "- If the meal has a lot of junk food (pizza, burger, fries, soda), gently warn the user but do not shame them.\n" ++
  "- Always remind the user that you are not a doctor or professional nutritionist.\n\n" ++
  "User message:\n\"" ++ user_message ++ "\"\n\n" ++
  "Approximate nutrition summary (may not be perfect):\n" ++ nutrition_summary ++ "\n\n" ++
  "Now respond to the user in friendly, simple English.\n" ++
  "Explain what this meal is like (light / moderate / heavy, balanced or not).\n" ++
  "Then give a short explanation of the nutrition, and finally give 1–3 easy tips to improve the meal.\n" ++
  "Avoid technical terms and keep it easy to read.\n"

/-- `ask_gemini(user_message, nutrition_summary)`: build the prompt, call the
external service (`gen`, the oracle for `model.generate_content(...).text`),
strip the reply.  An `Except.error` models a raised exception. -/
def ask_gemini (gen : String → Except String String)
    (user_message nutrition_summary : String) : Except String String :=
  match gen (geminiPrompt user_message nutrition_summary) with
  | Except.ok t => Except.ok (pyStrip t)
  | Except.error e => Except.error e

/-- The `/api/chat` handler body on an extracted `message` field: returns
`some (status, reply)`; `none` models an exception escaping the handler. -/
def chat (message : String) (gen : String → Except String String) :
    Option (ℕ × String) :=
  let user_message := pyStrip message
  if user_message = "" then
    some (200, "Please tell me what you ate so I can help.")
  else
    match analyze_food_text user_message with
    | none => none
    | some food_items =>
      let nutrition_summary := build_nutrition_summary food_items
      match ask_gemini gen user_message nutrition_summary with
      | Except.ok reply => some (200, reply)
      | Except.error _ =>
        some (200, "There was a problem talking to the AI server. Please try again later.")

/-- Two items that agree on everything `build_nutrition_summary` reads —
the name, the quantity and the five numeric fields — and may differ only in
the free-text `notes`. -/
def sameExceptNotes (a b : Item) : Prop :=
  a.name = b.name ∧ a.quantity = b.quantity ∧
  a.data.calories = b.data.calories ∧ a.data.protein = b.data.protein ∧
  a.data.carbs = b.data.carbs ∧ a.data.fat = b.data.fat ∧
  a.data.fiber = b.data.fiber

/-! ### Lemmas about the quantity pattern -/

/-- A prefix of the `takeWhile p` region of a list satisfies `p` throughout. -/
theorem take_all_of_le_takeWhile (p : Char → Bool) :
    ∀ (s : List Char) (m : ℕ), m ≤ (s.takeWhile p).length → (s.take m).all p = true := by
  intro s
  induction s with
  | nil =>
    intro m h
    simp only [List.takeWhile_nil, List.length_nil, Nat.le_zero] at h
    subst h
    simp
  | cons c rest ih =>
    intro m h
    cases m with
    | zero => simp
    | succ m =>
      by_cases hp : p c
      · rw [List.takeWhile_cons, if_pos hp] at h
        simp only [List.length_cons, Nat.succ_le_succ_iff] at h
        simp only [List.take_succ_cons, List.all_cons, hp, Bool.true_and]
        exact ih m h
      · rw [List.takeWhile_cons, if_neg hp] at h
        simp at h

/-- A successful `\s*<name>` match: some `k` whitespace characters were
consumed and then `name` matched literally. -/
theorem wsTry_spec (nm rest : List Char) :
    ∀ k0, wsTry nm rest k0 = true → ∃ k, k ≤ k0 ∧ nm.isPrefixOf (rest.drop k) = true := by
  intro k0
  induction k0 with
  | zero =>
    intro h
    exact ⟨0, Nat.le_refl 0, by simpa [wsTry] using h⟩
  | succ k ih =>
    intro h
    rw [wsTry] at h
    rcases Bool.or_eq_true_iff.mp h with h1 | h2
    · exact ⟨k + 1, Nat.le_refl _, h1⟩
    · obtain ⟨j, hj, hpre⟩ := ih h2
      exact ⟨j, hj.trans (Nat.le_succ k), hpre⟩

/-- A successful `(\d+)\s*<name>` match at the head of `s`: the capture is a
nonempty prefix `s.take m` of the available digit budget, followed by
whitespace and then the name. -/
theorem digTry_spec (nm s : List Char) :
    ∀ n ds, digTry nm s n = some ds →
      ∃ m, 1 ≤ m ∧ m ≤ n ∧ ds = s.take m ∧
        ∃ k, k ≤ ((s.drop m).takeWhile isPySpace).length ∧
          nm.isPrefixOf ((s.drop m).drop k) = true := by
  intro n
  induction n with
  | zero => intro ds h; simp [digTry] at h
  | succ m ih =>
    intro ds h
    rw [digTry] at h
    by_cases hw :
        wsTry nm (s.drop (m + 1)) ((s.drop (m + 1)).takeWhile isPySpace).length = true
    · rw [if_pos hw] at h
      obtain ⟨k, hk, hpre⟩ := wsTry_spec _ _ _ hw
      exact ⟨m + 1, Nat.succ_le_succ (Nat.zero_le m), Nat.le_refl _,
        (Option.some.inj h).symm, k, hk, hpre⟩
    · rw [if_neg hw] at h
      obtain ⟨m2, h1, h2, h3, hk⟩ := ih ds h
      exact ⟨m2, h1, h2.trans (Nat.le_succ m), h3, hk⟩

/-- A successful match at the head of `s`: capture shape plus decomposition. -/
theorem matchAt_spec (nm s ds : List Char) (h : matchAt nm s = some ds) :
    ds ≠ [] ∧ ds.all Char.isDigit = true ∧
      ∃ m k, ds = s.take m ∧
        ((s.drop m).take k).all isPySpace = true ∧
        nm.isPrefixOf (((s.drop m).drop k)) = true := by
  obtain ⟨m, hm1, hm2, hds, k, hk, hpre⟩ := digTry_spec nm s _ ds h
  have hdig : (s.take m).all Char.isDigit = true :=
    take_all_of_le_takeWhile Char.isDigit s m hm2
  have hlen : 1 ≤ s.length := by
    have h1 := (List.takeWhile_sublist (l := s) Char.isDigit).length_le
    omega
  have hne : ds ≠ [] := by
    rw [hds]
    intro hc
    have : (s.take m).length = 0 := by rw [hc]; rfl
    rw [List.length_take] at this
    omega
  refine ⟨hne, hds ▸ hdig, m, k, hds, ?_, hpre⟩
  exact take_all_of_le_takeWhile isPySpace (s.drop m) k hk

/-- A successful `re.search` of the quantity pattern decomposes the text as
`a ++ (digits ++ (whitespace ++ rest-starting-with-name))`. -/
theorem reSearchQty_spec (nm : List Char) :
    ∀ s ds, reSearchQty nm s = some ds →
      ∃ a ws b, s = a ++ (ds ++ (ws ++ b)) ∧ ds ≠ [] ∧
        ds.all Char.isDigit = true ∧ ws.all isPySpace = true ∧
        nm.isPrefixOf b = true := by
  intro s
  induction s with
  | nil => intro ds h; simp [reSearchQty] at h
  | cons c rest ih =>
    intro ds h
    rw [reSearchQty] at h
    cases hm : matchAt nm (c :: rest) with
    | some ds0 =>
      simp only [hm] at h
      obtain ⟨hne, hdig, m, k, hds, hws, hpre⟩ := matchAt_spec nm (c :: rest) ds0 hm
      obtain rfl : ds0 = ds := Option.some.inj h
      refine ⟨[], ((c :: rest).drop m).take k, ((c :: rest).drop m).drop k,
        ?_, hne, hdig, hws, hpre⟩
      rw [List.nil_append, hds, List.take_append_drop, List.take_append_drop]
    | none =>
      simp only [hm] at h
      obtain ⟨a, ws, b, heq, hne, hdig, hws, hpre⟩ := ih ds h
      exact ⟨c :: a, ws, b, by rw [List.cons_append, ← heq], hne, hdig, hws, hpre⟩

/-- The capture always parses: `int(match.group(1))` cannot raise. -/
theorem reSearchQty_parses (nm s ds : List Char) (h : reSearchQty nm s = some ds) :
    pyInt? ds = some ((digitsToNat ds : ℤ)) := by
  obtain ⟨a, ws, b, heq, hne, hdig, hws, hpre⟩ := reSearchQty_spec nm s ds h
  unfold pyInt?
  rw [if_neg (by simpa [List.isEmpty_iff] using hne), if_pos hdig]

/-! ### Characterization of the matcher loop -/

/-- One loop iteration never raises, and appends exactly when the food name
occurs in the lowercased text. -/
theorem foodItem?_eq (lower : List Char) (nm : String) (d : FoodData) :
    foodItem? lower nm d =
      some (if pyContains nm.data lower then some ⟨nm, qtyOf lower nm.data, d⟩
            else none) := by
  unfold foodItem? qtyOf
  by_cases hc : pyContains nm.data lower = true
  · simp only [hc, if_true]
    cases hr : reSearchQty nm.data lower with
    | none => rfl
    | some ds => simp [reSearchQty_parses nm.data lower ds hr]
  · simp [hc]

/-- The matcher loop never raises and returns exactly one item per table
entry whose name occurs in the text, in table order. -/
theorem analyzeAux_eq (lower : List Char) :
    ∀ tbl : List (String × FoodData),
      analyzeAux lower tbl =
        some ((tbl.filter (fun e => pyContains e.1.data lower)).map
          (fun e => ⟨e.1, qtyOf lower e.1.data, e.2⟩)) := by
  intro tbl
  induction tbl with
  | nil => rfl
  | cons e tbl ih =>
    obtain ⟨nm, d⟩ := e
    simp only [analyzeAux]
    rw [foodItem?_eq, ih]
    by_cases hc : pyContains nm.data lower = true
    · simp [hc, List.filter_cons]
    · simp [hc, List.filter_cons]

/-- Every emitted item comes from a table entry found in the text, carries
that entry's record, and stores the quantity `qtyOf` computes. -/
theorem analyze_mem (text : String) (items : List Item)
    (h : analyze_food_text text = some items) (it : Item) (hmem : it ∈ items) :
    (it.name, it.data) ∈ FOOD_DATA ∧
      pyContains it.name.data (text.data.map Char.toLower) = true ∧
      it.quantity = qtyOf (text.data.map Char.toLower) it.name.data := by
  unfold analyze_food_text at h
  rw [analyzeAux_eq] at h
  obtain rfl := Option.some.inj h
  obtain ⟨e, he, heq⟩ := List.mem_map.mp hmem
  obtain ⟨hmemF, hp⟩ := List.mem_filter.mp he
  subst heq
  exact ⟨hmemF, hp, rfl⟩

/-- `qtyOf` is never negative: the capture is a digit string. -/
theorem qtyOf_nonneg (lower nm : List Char) : 0 ≤ qtyOf lower nm := by
  unfold qtyOf
  cases reSearchQty nm lower with
  | none => decide
  | some ds => exact Int.natCast_nonneg _

/-- In a list of pairs with pairwise-distinct keys containing key `nm`,
exactly one element carries that key. -/
theorem countP_key_eq_one (nm : String) :
    ∀ l : List (String × FoodData), (l.map Prod.fst).Nodup →
      nm ∈ l.map Prod.fst → l.countP (fun e => e.1 == nm) = 1 := by
  intro l
  induction l with
  | nil => intro _ h; simp at h
  | cons e rest ih =>
    intro hnd hm
    rw [List.map_cons, List.nodup_cons] at hnd
    obtain ⟨hnot, hnd2⟩ := hnd
    rw [List.map_cons] at hm
    rw [List.countP_cons]
    cases List.mem_cons.mp hm with
    | inl heq =>
      have h0 : rest.countP (fun x => x.1 == nm) = 0 := by
        rw [List.countP_eq_zero]
        intro a ha hbeq
        have ha1 : a.1 = nm := by simpa using hbeq
        exact hnot (heq ▸ ha1 ▸ List.mem_map.mpr ⟨a, ha, rfl⟩)
      rw [h0, if_pos (by simp [heq.symm])]
    | inr hmem =>
      have hne : e.1 ≠ nm := fun hcontra => hnot (hcontra ▸ hmem)
      rw [if_neg (by simp [hne]), ih hnd2 hmem, Nat.add_zero]

/-- The table's keys are pairwise distinct. -/
theorem foodKeysNodup : (FOOD_DATA.map Prod.fst).Nodup := by decide

/-! ### Lemmas about the aggregator -/

/-- The accumulation loop, fully unrolled: each running total is the exact
sum of the unrounded per-item values. -/
theorem foldl_addItem (items : List Item) :
    ∀ t : Totals, items.foldl addItem t =
      ⟨t.calories + (items.map itemCalories).sum,
       t.protein + (items.map itemProtein).sum,
       t.carbs + (items.map itemCarbs).sum,
       t.fat + (items.map itemFat).sum,
       t.fiber + (items.map itemFiber).sum⟩ := by
  induction items with
  | nil => intro t; simp
  | cons it rest ih =>
    intro t
    rw [List.foldl_cons, ih]
    simp [addItem, add_assoc]

/-- The totals are the exact sums of the unrounded per-item values. -/
theorem totalsOf_eq (items : List Item) :
    totalsOf items =
      ⟨(items.map itemCalories).sum, (items.map itemProtein).sum,
       (items.map itemCarbs).sum, (items.map itemFat).sum,
       (items.map itemFiber).sum⟩ := by
  rw [totalsOf, foldl_addItem]
  simp

/-- The aggregator always returns a nonempty string. -/
theorem build_nutrition_summary_length_pos (items : List Item) :
    0 < (build_nutrition_summary items).length := by
  unfold build_nutrition_summary
  by_cases h : items.isEmpty
  · rw [if_pos h]; decide
  · rw [if_neg h]
    simp only [String.length_append]
    have h1 : ("Nutrition breakdown:\n" : String).length = 21 := rfl
    omega

/-- `Rat.floor` agrees with the floor of the archimedean order structure. -/
theorem rat_floor_eq (x : ℚ) : x.floor = ⌊x⌋ := by
  rw [Rat.floor_def']
  exact Rat.floor_def.symm

/-- `round` of an integer value is that integer. -/
theorem pyRound_intCast (n : ℤ) : pyRound ((n : ℚ)) = n := by
  unfold pyRound
  rw [rat_floor_eq, Int.floor_intCast, if_pos (by norm_num)]

/-- `round` below the halfway point rounds down. -/
theorem pyRound_lt_half (x : ℚ) (f : ℤ) (h1 : (f : ℚ) ≤ x) (h2 : x < f + 1 / 2) :
    pyRound x = f := by
  unfold pyRound
  rw [rat_floor_eq]
  have hf : ⌊x⌋ = f := Int.floor_eq_iff.mpr ⟨h1, by linarith⟩
  rw [hf, if_pos (by linarith)]

/-- Evaluating the one-decimal formatting once the scaled rounding is known. -/
theorem fmt1_eq_of (x : ℚ) (n : ℕ) (h : pyRound (10 * x) = (n : ℤ)) :
    fmt1 x = toString (n / 10) ++ "." ++ toString (n % 10) := by
  unfold fmt1
  rw [h, if_neg (by exact not_lt.mpr (Int.natCast_nonneg n)), Int.toNat_natCast]

/-! ### Notes-independence helpers -/

/-- The report line reads only the name, the quantity and the numbers. -/
theorem sameExceptNotes_itemLine {a b : Item} (h : sameExceptNotes a b) :
    itemLine a = itemLine b := by
  obtain ⟨h1, h2, h3, h4, h5, h6, h7⟩ := h
  unfold itemLine itemCalories itemProtein itemCarbs itemFat itemFiber
  rw [h1, h2, h3, h4, h5, h6, h7]

/-- The accumulation step reads only the quantity and the numbers. -/
theorem sameExceptNotes_addItem {a b : Item} (t : Totals) (h : sameExceptNotes a b) :
    addItem t a = addItem t b := by
  obtain ⟨h1, h2, h3, h4, h5, h6, h7⟩ := h
  unfold addItem itemCalories itemProtein itemCarbs itemFat itemFiber
  rw [h2, h3, h4, h5, h6, h7]

/-- The whole accumulation loop is notes-independent. -/
theorem forall2_foldl {l1 l2 : List Item} (h : List.Forall₂ sameExceptNotes l1 l2) :
    ∀ t, l1.foldl addItem t = l2.foldl addItem t := by
  induction h with
  | nil => intro t; rfl
  | cons hab hrest ih =>
    intro t
    rw [List.foldl_cons, List.foldl_cons, sameExceptNotes_addItem t hab]
    exact ih _

/-- The per-item report lines are notes-independent. -/
theorem forall2_lines {l1 l2 : List Item} (h : List.Forall₂ sameExceptNotes l1 l2) :
    l1.map itemLine = l2.map itemLine := by
  induction h with
  | nil => rfl
  | cons hab hrest ih => rw [List.map_cons, List.map_cons, sameExceptNotes_itemLine hab, ih]

/-! ### The claims -/

/-- C1 (counterexample): the matcher can emit a Matched Item with quantity
zero — on the input "0 chapati" the regex captures "0" and `int("0") = 0`
is stored, so the claimed invariant quantity ≥ 1 fails. -/
theorem c1_quantity_zero_counterexample :
    analyze_food_text "0 chapati" = some [⟨"chapati", 0, chapatiData⟩] ∧
    ¬ (1 ≤ (⟨"chapati", 0, chapatiData⟩ : Item).quantity) :=
  ⟨rfl, by decide⟩

/-- C1 (amended): for every input text, every Matched Item emitted by the
matcher (analyze_food_text) has quantity ≥ 0; the matcher never emits a
negative quantity, though an explicit leading "0" yields quantity zero. -/
theorem c1_matched_item_quantity_nonneg (text : String) (items : List Item)
    (h : analyze_food_text text = some items) :
    ∀ it ∈ items, 0 ≤ it.quantity := by
  intro it hmem
  obtain ⟨htab, hcont, hqty⟩ := analyze_mem text items h it hmem
  rw [hqty]
  exact qtyOf_nonneg _ _

/-- Witness for C1 (amended) at the concrete input "0 chapati". -/
theorem c1_quantity_nonneg_witness :
    0 ≤ (⟨"chapati", 0, chapatiData⟩ : Item).quantity :=
  c1_matched_item_quantity_nonneg "0 chapati" [⟨"chapati", 0, chapatiData⟩] rfl
    ⟨"chapati", 0, chapatiData⟩ (List.Mem.head _)

/-- C4: "2 chapatis" yields chapati with quantity 2; "chapati" defaults to
quantity 1; a spelled-out number ("two chapatis") and a number after the
food name ("chapati 2") fall back to 1; and in general a quantity other
than the default 1 can only come from a digit run immediately preceding
the food name (optional whitespace between), parsed as that quantity. -/
theorem c4_quantity_extraction :
    analyze_food_text "2 chapatis" = some [⟨"chapati", 2, chapatiData⟩] ∧
    analyze_food_text "chapati" = some [⟨"chapati", 1, chapatiData⟩] ∧
    analyze_food_text "two chapatis" = some [⟨"chapati", 1, chapatiData⟩] ∧
    analyze_food_text "chapati 2" = some [⟨"chapati", 1, chapatiData⟩] ∧
    ∀ (text : String) (items : List Item) (it : Item),
      analyze_food_text text = some items → it ∈ items → it.quantity ≠ 1 →
      ∃ a ds ws b, text.data.map Char.toLower = a ++ (ds ++ (ws ++ b)) ∧
        ds ≠ [] ∧ ds.all Char.isDigit = true ∧ ws.all isPySpace = true ∧
        it.name.data.isPrefixOf b = true ∧ pyInt? ds = some it.quantity := by
  refine ⟨rfl, rfl, rfl, rfl, ?_⟩
  intro text items it h hmem hq
  obtain ⟨htab, hcont, hqty⟩ := analyze_mem text items h it hmem
  unfold qtyOf at hqty
  cases hr : reSearchQty it.name.data (text.data.map Char.toLower) with
  | none =>
    rw [hr] at hqty
    exact absurd hqty hq
  | some ds =>
    rw [hr] at hqty
    obtain ⟨a, ws, b, heq, hne, hdig, hws, hpre⟩ := reSearchQty_spec _ _ _ hr
    refine ⟨a, ds, ws, b, heq, hne, hdig, hws, hpre, ?_⟩
    rw [hqty]
    exact reSearchQty_parses _ _ _ hr

/-- C5: every knowledge-base food name occurring (case-insensitively) in
the text produces exactly one Matched Item, however often it occurs, and
the output is ordered by the table's iteration order. -/
theorem c5_one_item_per_food_in_table_order (text : String) (items : List Item)
    (h : analyze_food_text text = some items) :
    (∀ nm d, (nm, d) ∈ FOOD_DATA →
        pyContains nm.data (text.data.map Char.toLower) = true →
        items.countP (fun it => it.name == nm) = 1) ∧
    (items.map Item.name).Sublist (FOOD_DATA.map Prod.fst) := by
  unfold analyze_food_text at h
  rw [analyzeAux_eq] at h
  obtain rfl := Option.some.inj h
  have hnames :
      (List.map Item.name
        ((FOOD_DATA.filter
            (fun e => pyContains e.1.data (text.data.map Char.toLower))).map
          (fun e => (⟨e.1, qtyOf (text.data.map Char.toLower) e.1.data, e.2⟩ : Item)))) =
      (FOOD_DATA.filter
          (fun e => pyContains e.1.data (text.data.map Char.toLower))).map Prod.fst := by
    rw [List.map_map]
    rfl
  constructor
  · intro nm d hmem hcont
    rw [List.countP_map]
    show (FOOD_DATA.filter
        (fun e => pyContains e.1.data (text.data.map Char.toLower))).countP
        (fun e => e.1 == nm) = 1
    apply countP_key_eq_one
    · exact List.Nodup.sublist ((List.filter_sublist _).map _) foodKeysNodup
    · exact List.mem_map.mpr ⟨(nm, d), List.mem_filter.mpr ⟨hmem, hcont⟩, rfl⟩
  · rw [hnames]
    exact (List.filter_sublist _).map _

/-- Witness for C5 at the concrete input "dal dal": one item despite two
occurrences, and the names are in table order. -/
theorem c5_one_item_witness :
    (([⟨"dal", 1, dalData⟩] : List Item).countP (fun it => it.name == "dal") = 1) ∧
    (([⟨"dal", 1, dalData⟩] : List Item).map Item.name).Sublist
      (FOOD_DATA.map Prod.fst) := by
  have h := c5_one_item_per_food_in_table_order "dal dal" [⟨"dal", 1, dalData⟩] rfl
  exact ⟨h.1 "dal" dalData (by simp [FOOD_DATA]) (by decide), h.2⟩

/-- C6: the empty match sequence yields exactly the fixed fallback message,
which is neither the empty string nor a totals-breakdown block. -/
theorem c6_empty_items_fallback_message :
    build_nutrition_summary [] = "I could not detect any known foods from the text." ∧
    build_nutrition_summary [] ≠ "" ∧
    ("Nutrition breakdown:".data.isPrefixOf (build_nutrition_summary []).data = false) :=
  ⟨rfl, by decide, by decide⟩

/-- C9: the matcher is total — it never raises, returning a (possibly
empty) item sequence on every input text — and the aggregator never fails,
always producing a nonempty report string. -/
theorem c9_matcher_aggregator_total :
    ∀ text : String, ∃ items : List Item,
      analyze_food_text text = some items ∧
      0 < (build_nutrition_summary items).length := by
  intro text
  exact ⟨_, analyzeAux_eq _ _, build_nutrition_summary_length_pos _⟩

/-- C2: the end-to-end scenario "I ate 2 chapatis and 1 dal": the matcher
returns exactly chapati (qty 2) then dal (qty 1) in table order, with
per-item values 240 kcal / 7.0 g / 36 g / 7.4 g / 4.0 g for chapati and
180 / 9 / 26 / 3 / 7 for dal, and totals 420 kcal / 16.0 g / 62.0 g /
10.4 g / 11.0 g, displayed as such. -/
theorem c2_end_to_end_chapati_dal :
    analyze_food_text "I ate 2 chapatis and 1 dal" =
      some [⟨"chapati", 2, chapatiData⟩, ⟨"dal", 1, dalData⟩] ∧
    itemCalories ⟨"chapati", 2, chapatiData⟩ = 240 ∧
    itemProtein ⟨"chapati", 2, chapatiData⟩ = 7 ∧
    itemCarbs ⟨"chapati", 2, chapatiData⟩ = 36 ∧
    itemFat ⟨"chapati", 2, chapatiData⟩ = 37 / 5 ∧
    itemFiber ⟨"chapati", 2, chapatiData⟩ = 4 ∧
    itemCalories ⟨"dal", 1, dalData⟩ = 180 ∧
    itemProtein ⟨"dal", 1, dalData⟩ = 9 ∧
    itemCarbs ⟨"dal", 1, dalData⟩ = 26 ∧
    itemFat ⟨"dal", 1, dalData⟩ = 3 ∧
    itemFiber ⟨"dal", 1, dalData⟩ = 7 ∧
    totalsOf [⟨"chapati", 2, chapatiData⟩, ⟨"dal", 1, dalData⟩] =
      ⟨420, 16, 62, 52 / 5, 11⟩ ∧
    toString (pyRound (totalsOf [⟨"chapati", 2, chapatiData⟩,
      ⟨"dal", 1, dalData⟩]).calories) = "420" ∧
    fmt1 (totalsOf [⟨"chapati", 2, chapatiData⟩, ⟨"dal", 1, dalData⟩]).protein = "16.0" ∧
    fmt1 (totalsOf [⟨"chapati", 2, chapatiData⟩, ⟨"dal", 1, dalData⟩]).carbs = "62.0" ∧
    fmt1 (totalsOf [⟨"chapati", 2, chapatiData⟩, ⟨"dal", 1, dalData⟩]).fat = "10.4" ∧
    fmt1 (totalsOf [⟨"chapati", 2, chapatiData⟩, ⟨"dal", 1, dalData⟩]).fiber = "11.0" := by
  have ht : totalsOf [⟨"chapati", 2, chapatiData⟩, ⟨"dal", 1, dalData⟩] =
      ⟨420, 16, 62, 52 / 5, 11⟩ := by
    rw [totalsOf_eq]
    norm_num [itemCalories, itemProtein, itemCarbs, itemFat, itemFiber,
      chapatiData, dalData]
  have hcal : pyRound ((420 : ℚ)) = ((420 : ℤ)) := by
    rw [show ((420 : ℚ)) = (((420 : ℤ) : ℚ)) by norm_num, pyRound_intCast]
  have hp : pyRound (10 * (16 : ℚ)) = ((160 : ℕ) : ℤ) := by
    rw [show (10 * (16 : ℚ)) = (((160 : ℤ) : ℚ)) by norm_num, pyRound_intCast]
    rfl
  have hc : pyRound (10 * (62 : ℚ)) = ((620 : ℕ) : ℤ) := by
    rw [show (10 * (62 : ℚ)) = (((620 : ℤ) : ℚ)) by norm_num, pyRound_intCast]
    rfl
  have hf : pyRound (10 * (52 / 5 : ℚ)) = ((104 : ℕ) : ℤ) := by
    rw [show (10 * (52 / 5 : ℚ)) = (((104 : ℤ) : ℚ)) by norm_num, pyRound_intCast]
    rfl
  have hfi : pyRound (10 * (11 : ℚ)) = ((110 : ℕ) : ℤ) := by
    rw [show (10 * (11 : ℚ)) = (((110 : ℤ) : ℚ)) by norm_num, pyRound_intCast]
    rfl
  refine ⟨rfl,
    by norm_num [itemCalories, chapatiData],
    by norm_num [itemProtein, chapatiData],
    by norm_num [itemCarbs, chapatiData],
    by norm_num [itemFat, chapatiData],
    by norm_num [itemFiber, chapatiData],
    by norm_num [itemCalories, dalData],
    by norm_num [itemProtein, dalData],
    by norm_num [itemCarbs, dalData],
    by norm_num [itemFat, dalData],
    by norm_num [itemFiber, dalData],
    ht, ?_, ?_, ?_, ?_, ?_⟩
  · rw [ht]
    show toString (pyRound ((420 : ℚ))) = "420"
    rw [hcal]
    rfl
  · rw [ht]
    show fmt1 ((16 : ℚ)) = "16.0"
    rw [fmt1_eq_of _ 160 hp]
    rfl
  · rw [ht]
    show fmt1 ((62 : ℚ)) = "62.0"
    rw [fmt1_eq_of _ 620 hc]
    rfl
  · rw [ht]
    show fmt1 ((52 / 5 : ℚ)) = "10.4"
    rw [fmt1_eq_of _ 104 hf]
    rfl
  · rw [ht]
    show fmt1 ((11 : ℚ)) = "11.0"
    rw [fmt1_eq_of _ 110 hfi]
    rfl

/-- C3: the running totals are accumulated from the exact unrounded
per-item values (base value × quantity); rounding happens only at display
time — three items each contributing 0.34 g protein display a total of
1.0 g, not the 0.9 g that summing per-item display-rounded values gives. -/
theorem c3_totals_unrounded_accumulation :
    (∀ items : List Item,
      totalsOf items =
        ⟨(items.map itemCalories).sum, (items.map itemProtein).sum,
         (items.map itemCarbs).sum, (items.map itemFat).sum,
         (items.map itemFiber).sum⟩) ∧
    fmt1 (totalsOf [⟨"x", 1, ⟨0, 34 / 100, 0, 0, 0, ""⟩⟩,
      ⟨"x", 1, ⟨0, 34 / 100, 0, 0, 0, ""⟩⟩,
      ⟨"x", 1, ⟨0, 34 / 100, 0, 0, 0, ""⟩⟩]).protein = "1.0" ∧
    fmt1 (3 * ((pyRound (10 * (34 / 100 : ℚ)) : ℚ) / 10)) = "0.9" ∧
    ("1.0" : String) ≠ "0.9" := by
  have h34 : pyRound (10 * (34 / 100 : ℚ)) = (3 : ℤ) :=
    pyRound_lt_half _ 3 (by norm_num) (by norm_num)
  refine ⟨totalsOf_eq, ?_, ?_, by decide⟩
  · have ht : (totalsOf [⟨"x", 1, ⟨0, 34 / 100, 0, 0, 0, ""⟩⟩,
        ⟨"x", 1, ⟨0, 34 / 100, 0, 0, 0, ""⟩⟩,
        ⟨"x", 1, ⟨0, 34 / 100, 0, 0, 0, ""⟩⟩]).protein = 51 / 50 := by
      rw [totalsOf_eq]
      norm_num [itemProtein]
    rw [ht]
    have h10 : pyRound (10 * (51 / 50 : ℚ)) = ((10 : ℕ) : ℤ) := by
      have h := pyRound_lt_half (10 * (51 / 50 : ℚ)) 10 (by norm_num) (by norm_num)
      exact h.trans rfl
    rw [fmt1_eq_of _ 10 h10]
    rfl
  · rw [h34]
    have h9 : pyRound (10 * ((3 : ℚ) * (((3 : ℤ) : ℚ) / 10))) = ((9 : ℕ) : ℤ) := by
      rw [show (10 * ((3 : ℚ) * (((3 : ℤ) : ℚ) / 10))) = (((9 : ℤ) : ℚ)) by norm_num,
        pyRound_intCast]
      rfl
    rw [fmt1_eq_of _ 9 h9]
    rfl

/-- C7: when the external generative-text service raises, the chat handler
catches the error at the call site, substitutes the fixed user-safe
fallback reply, and still returns HTTP 200 — the error never escapes. -/
theorem c7_service_failure_fallback (message : String)
    (gen : String → Except String String)
    (hne : pyStrip message ≠ "")
    (hfail : ∀ prompt, ∃ e, gen prompt = Except.error e) :
    chat message gen =
      some (200, "There was a problem talking to the AI server. Please try again later.") := by
  obtain ⟨items, hana⟩ : ∃ items, analyze_food_text (pyStrip message) = some items :=
    ⟨_, analyzeAux_eq _ _⟩
  obtain ⟨e, he⟩ := hfail (geminiPrompt (pyStrip message) (build_nutrition_summary items))
  simp only [chat, ask_gemini, if_neg hne, hana, he]

/-- Witness for C7: a service that always raises still gets HTTP 200 with
the fallback reply on the message "2 chapatis". -/
theorem c7_service_failure_witness :
    chat "2 chapatis" (fun _ => Except.error "boom") =
      some (200, "There was a problem talking to the AI server. Please try again later.") :=
  c7_service_failure_fallback "2 chapatis" (fun _ => Except.error "boom")
    (by decide) (fun prompt => ⟨"boom", rfl⟩)

/-- C8: a message that is empty after stripping gets HTTP 200 with the
prompting reply, independently of the external service — no call to it is
ever made. -/
theorem c8_empty_message_prompt (message : String)
    (gen : String → Except String String) (h : pyStrip message = "") :
    chat message gen = some (200, "Please tell me what you ate so I can help.") := by
  simp only [chat, if_pos h]

/-- Witness for C8 at the empty message and an arbitrary service. -/
theorem c8_empty_message_witness :
    chat "" (fun _ => Except.ok "hello") =
      some (200, "Please tell me what you ate so I can help.") :=
  c8_empty_message_prompt "" (fun _ => Except.ok "hello") rfl

/-- C10: the aggregator ignores the notes field — two item sequences that
agree on names, quantities and the five numeric fields produce the
identical summary string. -/
theorem c10_notes_independence (l1 l2 : List Item)
    (h : List.Forall₂ sameExceptNotes l1 l2) :
    build_nutrition_summary l1 = build_nutrition_summary l2 := by
  cases h with
  | nil => rfl
  | @cons a b as bs hab hrest =>
    have htot : totalsOf (a :: as) = totalsOf (b :: bs) :=
      forall2_foldl (List.Forall₂.cons hab hrest) ⟨0, 0, 0, 0, 0⟩
    have hlines : (a :: as).map itemLine = (b :: bs).map itemLine :=
      forall2_lines (List.Forall₂.cons hab hrest)
    unfold build_nutrition_summary
    rw [if_neg (by simp), if_neg (by simp), htot, hlines]

/-- Witness for C10: two apple records differing only in notes yield the
same summary. -/
theorem c10_notes_independence_witness :
    build_nutrition_summary [⟨"apple", 1, ⟨95, 5 / 10, 25, 3 / 10, 44 / 10, "A"⟩⟩] =
      build_nutrition_summary [⟨"apple", 1, ⟨95, 5 / 10, 25, 3 / 10, 44 / 10, "B"⟩⟩] :=
  c10_notes_independence _ _
    (List.Forall₂.cons ⟨rfl, rfl, rfl, rfl, rfl, rfl, rfl⟩ List.Forall₂.nil)
